import Mathlib

/-!
Verification development for the Soong build-configuration components:
the toolchain flag configuration (`cc/config/global.go`) and the boot image
build generator (dexpreopt boot jars).  Go code is embedded shallowly:
package-level mutable state becomes explicit record passing, `panic`
becomes `Except.error`, and filesystem/environment reads become explicit
parameters describing their outcome.
-/

/- ===================================================================
   Component 1: Toolchain Flag Configuration (cc/config/global.go)
   =================================================================== -/

/-- The parsed ABI allow-list document (Go struct `QiifaAbiLibs`): the list of
`<library>` element contents, in document order, as produced by the XML
unmarshaller (the unmarshaller itself is Go standard-library code; a
well-formed `<abilibs>` document with N `<library>` entries yields exactly
those N strings in document order). -/
structure QiifaAbiLibs where
  Library : List String
  deriving Repr, DecidableEq

/-- The ABI allow-list loading fragment of `init()`: if the stat of the path
named by `QIIFA_BUILD_CONFIG` does not report "not exist", the file is read
and unmarshalled, and each entry of the resulting `Library` list is appended,
in index order, to the initially empty `QiifaAbiLibraryList`.  A nonexistent
path (including the empty path when the variable is unset) skips the block,
leaving the list empty, and raises no error. -/
def loadQiifaAbiLibraryList (fileExists : Bool) (qiifalibs : QiifaAbiLibs) : List String :=
  if fileExists then
    qiifalibs.Library.foldl (fun acc l => acc ++ [l]) []
  else
    []

/-- Package variable `commonGlobalCflags` (the static initializer list). -/
def commonGlobalCflags : List String :=
  [ "-DANDROID",
    "-fmessage-length=0",
    "-W",
    "-Wall",
    "-Wno-unused",
    "-Winit-self",
    "-Wpointer-arith",
    "-Wunreachable-code-loop-increment",
    "-no-canonical-prefixes",
    "-DNDEBUG",
    "-UDEBUG",
    "-fno-exceptions",
    "-Wno-multichar",
    "-O3",
    "-g",
    "-fdebug-default-version=5",
    "-fno-strict-aliasing",
    "-Werror=date-time",
    "-Werror=pragma-pack",
    "-Werror=pragma-pack-suspicious-include",
    "-Werror=string-plus-int",
    "-Werror=unreachable-code-loop-increment",
    "-Wno-error=deprecated-declarations",
    "-D__compiler_offsetof=__builtin_offsetof",
    "-faddrsig",
    "-fcommon",
    "-Werror=int-conversion",
    "-Wno-reserved-id-macro",
    "-Wno-unused-command-line-argument",
    "-fcolor-diagnostics",
    "-Wno-sign-compare",
    "-Wno-inconsistent-missing-override",
    "-Wno-c99-designator",
    "-Wno-gnu-designator",
    "-Wno-gnu-folding-constant",
    "-Wunguarded-availability",
    "-D__ANDROID_UNAVAILABLE_SYMBOLS_ARE_WEAK__" ]

/-- The single list element appended for zero initialization (the flag triple
is one element of the Go slice; the variable value is space-joined later). -/
def zeroInitFlags : String :=
  "-ftrivial-auto-var-init=zero -enable-trivial-auto-var-init-zero-knowing-it-will-be-removed-from-clang -Wno-unused-command-line-argument"

/-- The list element appended for pattern initialization. -/
def patternInitFlag : String := "-ftrivial-auto-var-init=pattern"

/-- The list element appended for uninitialized stack variables. -/
def uninitInitFlag : String := "-ftrivial-auto-var-init=uninitialized"

/-- The value of the package variable `commonGlobalCflags` after `init()` ran:
on a linux host, `-fdebug-prefix-map=/proc/self/cwd=` is appended once. -/
def commonGlobalCflagsAfterInit (linuxHost : Bool) : List String :=
  if linuxHost then commonGlobalCflags ++ ["-fdebug-prefix-map=/proc/self/cwd="]
  else commonGlobalCflags

/-- The `CommonGlobalCflags` `VariableFunc` body: starting from the package
list, append exactly one stack-initialization element chosen by the 4-way
environment check (`AUTO_ZERO_INITIALIZE`, else `AUTO_PATTERN_INITIALIZE`,
else `AUTO_UNINITIALIZE`, else the zero-initialization default), then the
ccache workaround when `USE_CCACHE`, then the unknown-warning-option
tolerance when `ALLOW_UNKNOWN_WARNING_OPTION`. -/
def commonGlobalCflagsVar (linuxHost autoZero autoPattern autoUninit useCcache allowUnknown : Bool) :
    List String :=
  let flags := commonGlobalCflagsAfterInit linuxHost
  let flags :=
    if autoZero then flags ++ [zeroInitFlags]
    else if autoPattern then flags ++ [patternInitFlag]
    else if autoUninit then flags ++ [uninitInitFlag]
    else flags ++ [zeroInitFlags]
  let flags := if useCcache then flags ++ ["-Wno-unused-command-line-argument"] else flags
  let flags := if allowUnknown then flags ++ ["-Wno-error=unknown-warning-option"] else flags
  flags

/-- The string value of the `CommonGlobalCflags` build variable
(`strings.Join(flags, " ")`). -/
def commonGlobalCflagsVarString (linuxHost autoZero autoPattern autoUninit useCcache allowUnknown : Bool) :
    String :=
  String.intercalate " " (commonGlobalCflagsVar linuxHost autoZero autoPattern autoUninit useCcache allowUnknown)

/-- Recognizer for the three stack-initialization options (each is a single
element of the flag list). -/
def isAutoInitFlag (s : String) : Bool :=
  s == zeroInitFlags || s == patternInitFlag || s == uninitInitFlag

/-- Go `strconv.ParseBool`: the exact set of accepted literals. -/
def parseBool : String → Option Bool
  | "1" | "t" | "T" | "TRUE" | "true" | "True" => some true
  | "0" | "f" | "F" | "FALSE" | "false" | "False" => some false
  | _ => none

/-- One block of the SD Clang vendor JSON config (the `default` block or a
product-specific block).  Each key is optional at the JSON level; required
keys are enforced by `setSdclangVars` itself.  `FORCE_SDCLANG_OFF` is only
consulted in the default block. -/
structure SdclangBlock where
  forceSdclangOff : Option Bool := none
  sdclang : Option Bool := none
  sdclangPath : Option String := none
  sdclangFlags : Option String := none
  deriving Repr, DecidableEq

/-- The parsed SD Clang vendor JSON document: an optional `default` block and
the product-name-keyed blocks (Go iterates a generic map; only the block
whose key equals `TARGET_BOARD_PLATFORM` is consulted, so an association
list with distinct keys is a faithful view). -/
structure SdclangConfig where
  defaultBlock : Option SdclangBlock := none
  products : List (String × SdclangBlock) := []
  deriving Repr, DecidableEq

/-- The environment variables read by `setSdclangVars`.  An unset variable is
the empty string, exactly as `os.Getenv` reports it. -/
structure SdclangEnv where
  targetBoardPlatform : String := ""
  sdclangConfigPath : String := ""
  sdclangSA : String := ""
  sdclangEnvVar : String := ""
  sdclangPathEnv : String := ""
  deriving Repr, DecidableEq

/-- The package-level state written by `setSdclangVars`: `SDClang`,
`SDClangPath`, `ForceSDClangOff`, and the two captured locals feeding the
`SDClangBin`/`SDClangFlags` variable funcs. -/
structure SdclangState where
  sdclang : Bool := false
  sdclangPath : String := ""
  forceSdclangOff : Bool := false
  sdclangAEFlag : String := ""
  sdclangFlags : String := ""
  deriving Repr, DecidableEq

/-- The config-file stage of `setSdclangVars`: starting from the state after
the AE-config stage (`s0`), load the vendor JSON document when its file
opened, enforce the required `default` block and its required
`SDCLANG_PATH`, apply the product-specific block when one matches
`TARGET_BOARD_PLATFORM`, and append the static-analysis fragment when
`SDCLANG_SA_ENABLED` parses as a truthy boolean. -/
def sdclangLoadConfig (env : SdclangEnv) (s0 : SdclangState) (cfg : Option SdclangConfig) :
    Except String SdclangState :=
  match cfg with
  | none => .ok s0
  | some config =>
    match config.defaultBlock with
    | none => .error "Default block is required in the SD Clang config file"
    | some devConfig =>
      let forceOff := devConfig.forceSdclangOff.getD s0.forceSdclangOff
      let sdclang1 := devConfig.sdclang.getD s0.sdclang
      match devConfig.sdclangPath with
      | none => .error "SDCLANG_PATH is required in the default block"
      | some path1 =>
        let flags1 := devConfig.sdclangFlags.getD s0.sdclangFlags
        let (sdclang2, path2, flags2) :=
          match config.products.lookup env.targetBoardPlatform with
          | some devConfig2 =>
            (devConfig2.sdclang.getD sdclang1,
             devConfig2.sdclangPath.getD path1,
             devConfig2.sdclangFlags.getD flags1)
          | none => (sdclang1, path1, flags1)
        let flags3 :=
          if (parseBool env.sdclangSA).getD false then
            String.intercalate " " [flags2, "--compile-and-analyze", "llvmsa"]
          else flags2
        .ok { sdclang := sdclang2, sdclangPath := path2, forceSdclangOff := forceOff,
              sdclangAEFlag := s0.sdclangAEFlag, sdclangFlags := flags3 }

/-- The `SDCLANG` environment override: when the variable is set and parses
as a boolean it replaces the resolved enablement (an unset variable is the
empty string, which does not parse). -/
def sdclangEffectiveEnable (envVar : String) (resolved : Bool) : Bool :=
  match parseBool envVar with
  | some override => override
  | none => resolved

/-- Shallow embedding of `setSdclangVars`.  `aeFlag` is the decoded
`SDCLANG_AE_FLAG` of the AE config file when that file opened and decoded
(a missing file is tolerated and leaves the flag empty); `cfg` is the parsed
vendor JSON document when `SDCLANG_CONFIG` opened (a missing file prints the
error and continues with the zero values).  A Go `panic` is `Except.error`
with the panic message. -/
def setSdclangVars (env : SdclangEnv) (aeFlag : Option String) (cfg : Option SdclangConfig) :
    Except String SdclangState :=
  if env.sdclangConfigPath = "" then
    .ok {}
  else
    match sdclangLoadConfig env { sdclangAEFlag := aeFlag.getD "" } cfg with
    | .error e => .error e
    | .ok s1 =>
      let sdclangFinal := sdclangEffectiveEnable env.sdclangEnvVar s1.sdclang
      if sdclangFinal && s1.sdclangPath == "" && env.sdclangPathEnv == "" then
        .error "SDCLANG_PATH can not be empty"
      else
        .ok { s1 with sdclang := sdclangFinal }

/-- The `SDClangBin` variable func: the `SDCLANG_PATH` environment override
when nonempty, else the resolved vendor path. -/
def sdClangBin (s : SdclangState) (envOverride : String) : String :=
  if envOverride ≠ "" then envOverride else s.sdclangPath

/-- The `SDClangFlags` variable func: the `SDCLANG_COMMON_FLAGS` environment
override when nonempty, else the AE flag and the resolved vendor flags. -/
def sdClangFlagsVar (s : SdclangState) (envOverride : String) : String :=
  if envOverride ≠ "" then envOverride else s.sdclangAEFlag ++ " " ++ s.sdclangFlags

/-- The observable resolution outcome of `setSdclangVars` apart from the
stored `ForceSDClangOff` value: enablement, compiler path, extra flags and
the AE flag. -/
def sdclangObservable (s : SdclangState) : Bool × String × String × String :=
  (s.sdclang, s.sdclangPath, s.sdclangFlags, s.sdclangAEFlag)

/-- Whether an `Except` is an error. -/
def exceptIsError : Except String SdclangState → Bool
  | .error _ => true
  | .ok _ => false

/- ===================================================================
   Component 2: Boot Image Build Generator (dexpreopt boot jars)
   =================================================================== -/

/-- Modelled from the spec: `android.ModuleStem` (the `android` package is not
in this repository) returns the library name used as the file-name suffix of
a boot image component; the spec writes component files as
`<stem>-<library>.<ext>`, so the stem of a library is the library name. -/
def ModuleStem (m : String) : String := m

/-- Target-independent description of a boot image (`bootImageConfig`),
restricted to the fields the derived queries below read.  `modules` is the
image's `ConfiguredJarList`: ordered (apex, jar) pairs.  `extendsName` models
the `extends` pointer: `none` for a primary image (`extends == nil`),
`some n` when the image extends the image named `n`. -/
structure BootImageConfig where
  extendsName : Option String := none
  name : String := ""
  stem : String := ""
  dir : String := ""
  modules : List (String × String) := []
  singleImage : Bool := false
  compilerFilter : String := ""
  deriving Repr, DecidableEq

/-- `image.modules.Jar(idx)`: the jar (library) name of the idx-th module. -/
def jarAt (image : BootImageConfig) (idx : Nat) : String :=
  (image.modules.getD idx ("", "")).2

/-- `bootImageConfig.moduleName`: the stem alone for the first module of a
primary image, `<stem>-<library>` for every other module and for every
module of an extension image. -/
def moduleName (image : BootImageConfig) (idx : Nat) : String :=
  let m := jarAt image idx
  let name := image.stem
  if idx ≠ 0 || image.extendsName.isSome then name ++ "-" ++ ModuleStem m
  else name

/-- `bootImageConfig.firstModuleNameOrStem`. -/
def firstModuleNameOrStem (image : BootImageConfig) : String :=
  if image.modules.length > 0 then moduleName image 0 else image.stem

/-- The loop body of `bootImageConfig.moduleFiles` from module index `i` with
`n` loop iterations remaining: emit `dir/<name><ext>` for each extension of
the current module, then stop after the first iteration when `singleImage`
is set (the Go `break`). -/
def moduleFilesFrom (image : BootImageConfig) (dir : String) (exts : List String) :
    Nat → Nat → List String
  | _, 0 => []
  | i, n + 1 =>
    let batch := exts.map (fun ext => dir ++ "/" ++ (moduleName image i ++ ext))
    if image.singleImage then batch
    else batch ++ moduleFilesFrom image dir exts (i + 1) n

/-- `bootImageConfig.moduleFiles`: filenames for every boot image component,
in module order, with every extension for one module grouped together. -/
def moduleFiles (image : BootImageConfig) (dir : String) (exts : List String) : List String :=
  moduleFilesFrom image dir exts 0 image.modules.length

/-- `bootImageConfig.isProfileGuided`. -/
def isProfileGuided (image : BootImageConfig) : Bool :=
  image.compilerFilter == "everything"

/-- Replace every non-overlapping occurrence of `pat` by `repl`, left to
right, with `fuel` bounding the recursion (called with the input length; an
empty pattern never matches here because callers pass a pattern containing
two slashes). -/
def replaceChars (pat repl : List Char) : Nat → List Char → List Char
  | 0, l => l
  | _ + 1, [] => []
  | n + 1, c :: cs =>
    if pat ≠ [] ∧ pat.isPrefixOf (c :: cs) then
      repl ++ replaceChars pat repl n ((c :: cs).drop pat.length)
    else
      c :: replaceChars pat repl n cs

/-- Modelled from the spec: `dexpreopt.PathToLocation` (the `dexpreopt`
package is not in this repository) turns an architecture-specific image file
path into the symbolic arch-independent location by dropping the
architecture sub-directory, e.g. `/apex/com.android.art/javalib/x86/boot.art`
becomes `/apex/com.android.art/javalib/boot.art`. -/
def PathToLocation (path arch : String) : String :=
  ⟨replaceChars ("/" ++ arch ++ "/").data "/".data path.data.length path.data⟩

/-- Modelled from the spec: `dexpreopt.PathStringToLocation`, the on-device
string form of `PathToLocation`. -/
def PathStringToLocation (path arch : String) : String :=
  ⟨replaceChars ("/" ++ arch ++ "/").data "/".data path.data.length path.data⟩

/-- Target-dependent boot image variant (`bootImageVariant`), restricted to
what `imageLocations` reads.  The `base` argument of `extensionOf` models
`image.extends.getVariant(image.target)`: the base image's variant for the
same target (for a primary image, `extends` is nil and there is no base). -/
inductive BootImageVariant : Type where
  | primary (imagePathOnHost imagePathOnDevice arch : String)
  | extensionOf (base : BootImageVariant) (imagePathOnHost imagePathOnDevice arch : String)
  deriving Repr, DecidableEq

/-- `bootImageVariant.imageLocations`: the base variant's locations (when the
image extends another) followed by this variant's own location, in the
on-host and the on-device form. -/
def imageLocations : BootImageVariant → List String × List String
  | .primary ph pd arch => ([PathToLocation ph arch], [PathStringToLocation pd arch])
  | .extensionOf base ph pd arch =>
    let (lh, ld) := imageLocations base
    (lh ++ [PathToLocation ph arch], ld ++ [PathStringToLocation pd arch])

/-- The number of images in the extension chain of a variant (itself
included). -/
def variantChainLength : BootImageVariant → Nat
  | .primary _ _ _ => 1
  | .extensionOf base _ _ _ => variantChainLength base + 1

/- ----- copyBootJarsToPredefinedLocations ----- -/

/-- One step generated by `copyBootJarsToPredefinedLocations` for one module
name: a module error, a recorded missing dependency, or a copy build rule. -/
inductive BootJarCopyStep : Type where
  | errorNoDexJar (moduleName : String)
  | missingDep (moduleName : String)
  | errorNotInBootConfig (moduleName : String)
  | copy (moduleName src dst : String)
  deriving Repr, DecidableEq

/-- The module name a copy step is about. -/
def BootJarCopyStep.forModule : BootJarCopyStep → String
  | .errorNoDexJar n => n
  | .missingDep n => n
  | .errorNotInBootConfig n => n
  | .copy n _ _ => n

/-- Whether a step is a copy build rule. -/
def BootJarCopyStep.isCopy : BootJarCopyStep → Bool
  | .copy _ _ _ => true
  | _ => false

/-- Byte-wise (code-point-wise) lexicographic comparison of strings, the
order Go's `sort.Strings` uses. -/
def charListLe : List Char → List Char → Bool
  | [], _ => true
  | _ :: _, [] => false
  | a :: as, b :: bs => if a = b then charListLe as bs else decide (a < b)

/-- String comparison on the character lists. -/
def strLe (a b : String) : Bool := charListLe a.data b.data

/-- Insert a string into a sorted list. -/
def insertStr (x : String) : List String → List String
  | [] => [x]
  | y :: ys => if strLe x y then x :: y :: ys else y :: insertStr x ys

/-- Insertion sort by `strLe`. -/
def sortStrings : List String → List String
  | [] => []
  | x :: xs => insertStr x (sortStrings xs)

/-- `android.SortedUniqueStrings`: sort and drop duplicates (the android
package is not in this repository; sorted-and-deduplicated is its documented
observable behavior). -/
def sortedUniqueStrings (l : List String) : List String :=
  (sortStrings l).dedup

/-- `copyBootJarsToPredefinedLocations`: over the sorted union of the names
of the discovered source map and the predefined destination map, a name with
no source is a "does not provide a dex boot jar" module error (or a recorded
missing dependency when missing dependencies are allowed), a name with a
source but no destination is a "is not part of the boot configuration"
module error, and a name with both produces one copy build rule.  Maps are
association lists with distinct keys (Go maps). -/
def copyBootJarsToPredefinedLocations (allowMissingDependencies : Bool)
    (srcBootDexJarsByModule dstBootJarsByModule : List (String × String)) :
    List BootJarCopyStep :=
  let names := sortedUniqueStrings
    (srcBootDexJarsByModule.map Prod.fst ++ dstBootJarsByModule.map Prod.fst)
  names.map fun name =>
    match srcBootDexJarsByModule.lookup name, dstBootJarsByModule.lookup name with
    | none, _ =>
      if allowMissingDependencies then .missingDep name else .errorNoDexJar name
    | some _, none => .errorNotInBootConfig name
    | some src, some dst => .copy name src dst

/- ----- buildBootImageVariant: the dex2oat command ----- -/

/-- One token of the generated dex2oat command, mirroring the rule-builder
command structure: `FlagWithArg(pfx, arg)`/`FlagWithInput`/`FlagWithOutput`
become `(pfx, arg)`, a plain `Flag(f)` becomes `(f, "")`. -/
abbrev CmdTok := String × String

/-- A plain flag token. -/
def flagTok (f : String) : CmdTok := (f, "")

/-- A flag-with-argument token. -/
def flagArg (pfx arg : String) : CmdTok := (pfx, arg)

/-- The slice of the global dexpreopt config read by the rules modelled
here. -/
structure GlobalConfig where
  disableGenerateProfile : Bool := false
  bootImageProfiles : List String := []
  dex2oatImageXms : String := ""
  dex2oatImageXmx : String := ""
  bootFlags : String := ""
  enableUffdGc : Bool := false
  cpuVariant : String := ""
  instructionSetFeatures : String := ""
  emptyDirectory : String := ""
  deriving Repr, DecidableEq

/-- The per-variant inputs of `buildBootImageVariant` that feed the dex2oat
command line: the owning image config plus the resolved paths, environment
and filesystem facts the function reads.  `profileImportPaths` are the
profile paths of the resolved `profileImports` fragments (the error paths
for unresolved fragments return before the command is built). -/
structure VariantCmdInput where
  config : BootImageConfig := {}
  arch : String := ""
  isDeviceOs : Bool := true
  invocationPath : String := ""
  symbolsFile : String := ""
  outputPath : String := ""
  oatLocation : String := ""
  imagePath : String := ""
  profile : Option String := none
  profileImportPaths : List String := []
  dirtyImageExists : Bool := false
  preloadedClassesExists : Bool := false
  baseImageLocations : List String := []
  dexPathsDeps : List String := []
  dexLocationsDeps : List String := []
  dexPaths : List String := []
  dexLocations : List String := []
  libartImgDeviceBaseAddress : String := ""
  extraFlags : String := ""
  preloadedClassesFile : String := ""
  deriving Repr, DecidableEq

/-- The dex2oat argument token sequence built by `buildBootImageVariant`, in
emission order. -/
def dex2oatCmd (global : GlobalConfig) (v : VariantCmdInput) : List CmdTok :=
  [flagTok "--avoid-storing-invocation",
   flagArg "--write-invocation-to=" v.invocationPath,
   flagTok "--runtime-arg", flagArg "-Xms" global.dex2oatImageXms,
   flagTok "--runtime-arg", flagArg "-Xmx" global.dex2oatImageXmx]
  ++ (match v.profile with
      | some p => [flagArg "--profile-file=" p]
      | none => [])
  ++ v.profileImportPaths.map (fun p => flagArg "--profile-file=" p)
  ++ (if v.dirtyImageExists then
        [flagArg "--dirty-image-objects=" "frameworks/base/config/dirty-image-objects"]
      else [])
  ++ (if v.config.extendsName.isSome then
        [flagTok "--runtime-arg",
         flagArg "-Xbootclasspath:" (String.intercalate ":" v.dexPathsDeps),
         flagTok "--runtime-arg",
         flagArg "-Xbootclasspath-locations:" (String.intercalate ":" v.dexLocationsDeps),
         flagArg "--boot-image=" (String.intercalate ":" v.baseImageLocations)]
      else
        [flagArg "--base=" v.libartImgDeviceBaseAddress])
  ++ (if v.preloadedClassesFile.length > 0 && v.preloadedClassesExists then
        [flagArg "--preloaded-classes=" v.preloadedClassesFile]
      else [])
  ++ v.dexPaths.map (fun p => flagArg "--dex-file=" p)
  ++ v.dexLocations.map (fun p => flagArg "--dex-location=" p)
  ++ [flagTok "--generate-debug-info",
      flagTok "--generate-build-id",
      flagTok "--image-format=lz4hc",
      flagArg "--oat-symbols=" v.symbolsFile,
      flagTok "--strip",
      flagArg "--oat-file=" v.outputPath,
      flagArg "--oat-location=" v.oatLocation,
      flagArg "--image=" v.imagePath,
      flagArg "--instruction-set=" v.arch,
      flagArg "--android-root=" global.emptyDirectory,
      flagArg "--no-inline-from=" "core-oj.jar",
      flagTok "--force-determinism",
      flagTok "--abort-on-hard-verifier-error"]
  ++ (if !(isProfileGuided v.config && global.disableGenerateProfile) then
        [flagArg "--compiler-filter=" v.config.compilerFilter]
      else [])
  ++ (if v.config.singleImage then [flagTok "--single-image"] else [])
  ++ (if v.isDeviceOs then
        [flagArg "--instruction-set-variant=" global.cpuVariant,
         flagArg "--instruction-set-features=" global.instructionSetFeatures]
      else [])
  ++ (if global.enableUffdGc then [flagTok "--runtime-arg", flagTok "-Xgc:CMC"] else [])
  ++ (if global.bootFlags ≠ "" then [flagTok global.bootFlags] else [])
  ++ (if v.extraFlags ≠ "" then [flagTok v.extraFlags] else [])

/- ----- bootImageProfileRule ----- -/

/-- The filesystem and build-context facts `bootImageProfileRule` reads. -/
structure ProfileRuleCtx where
  defaultProfileExists : Bool := false
  extraProfileExists : Bool := false
  isDefaultImage : Bool := false
  deriving Repr, DecidableEq

/-- What `bootImageProfileRule` produces when it does not return nil: the
human-readable profile inputs concatenated by the `cat` command, the output
profile path, and the install rules recorded on the image. -/
structure ProfileRuleResult where
  profiles : List String
  profilePath : String
  installs : List (String × String)
  deriving Repr, DecidableEq

/-- `bootImageProfileRule`: nil when the image is not profile-guided, when
profile generation is globally disabled, or when there is neither a
configured `BootImageProfiles` list nor a default profile file on disk;
otherwise the profile inputs are the configured list (or the default file),
plus the extra profile file when it exists, and only the default image
installs the result at `/system/etc/boot-image.prof`. -/
def bootImageProfileRule (global : GlobalConfig) (ctx : ProfileRuleCtx)
    (image : BootImageConfig) : Option ProfileRuleResult :=
  if !(isProfileGuided image) then none
  else if global.disableGenerateProfile then none
  else
    let defaultProfile := "frameworks/base/config/boot-image-profile.txt"
    let extraProfile := "frameworks/base/config/boot-image-profile-extra.txt"
    let profiles? : Option (List String) :=
      if global.bootImageProfiles.length > 0 then some global.bootImageProfiles
      else if ctx.defaultProfileExists then some [defaultProfile]
      else none
    match profiles? with
    | none => none
    | some ps =>
      let ps := ps ++ (if ctx.extraProfileExists then [extraProfile] else [])
      let profile := image.dir ++ "/" ++ "boot.prof"
      some { profiles := ps,
             profilePath := profile,
             installs :=
               if ctx.isDefaultImage then [(profile, "/system/etc/boot-image.prof")] else [] }

/- ===================================================================
   Helper lemmas
   =================================================================== -/

theorem foldl_append_singleton (l : List String) (acc : List String) :
    l.foldl (fun a x => a ++ [x]) acc = acc ++ l := by
  induction l generalizing acc with
  | nil => simp
  | cons x xs ih => simp [List.foldl_cons, ih]

theorem insertStr_perm (x : String) (l : List String) : (insertStr x l).Perm (x :: l) := by
  induction l with
  | nil => simp [insertStr]
  | cons y ys ih =>
    by_cases h : strLe x y
    · simp [insertStr, h]
    · simp only [insertStr, h, if_neg, Bool.false_eq_true, if_false]
      exact ((ih.cons y).trans (List.Perm.swap x y ys))

theorem sortStrings_perm (l : List String) : (sortStrings l).Perm l := by
  induction l with
  | nil => simp [sortStrings]
  | cons x xs ih => exact (insertStr_perm x (sortStrings xs)).trans (ih.cons x)

theorem mem_sortedUniqueStrings {x : String} {l : List String} :
    x ∈ sortedUniqueStrings l ↔ x ∈ l := by
  rw [sortedUniqueStrings, List.mem_dedup, (sortStrings_perm l).mem_iff]

theorem nodup_sortedUniqueStrings (l : List String) : (sortedUniqueStrings l).Nodup :=
  List.nodup_dedup _

theorem filter_forModule_map (f : String → BootJarCopyStep)
    (hf : ∀ n, (f n).forModule = n) (names : List String) (name : String) :
    (names.map f).filter (fun e => e.forModule == name)
      = (names.filter (fun n => n == name)).map f := by
  induction names with
  | nil => rfl
  | cons n ns ih =>
    by_cases h : n = name
    · subst h
      simp [List.filter_cons, hf, ih]
    · simp [List.filter_cons, hf, h, ih]

theorem filter_beq_of_nodup {l : List String} {name : String}
    (hnd : l.Nodup) (hmem : name ∈ l) :
    l.filter (fun n => n == name) = [name] := by
  induction l with
  | nil => cases hmem
  | cons x xs ih =>
    rcases List.mem_cons.mp hmem with h | h
    · subst h
      have hx : name ∉ xs := (List.nodup_cons.mp hnd).1
      have : xs.filter (fun n => n == name) = [] := by
        rw [List.filter_eq_nil_iff]
        intro a ha
        simp only [beq_iff_eq]
        intro hax
        exact hx (hax ▸ ha)
      simp [List.filter_cons, this]
    · have hx : x ≠ name := by
        rintro rfl
        exact (List.nodup_cons.mp hnd).1 h
      simp [List.filter_cons, hx, ih (List.nodup_cons.mp hnd).2 h]

theorem lookup_isSome_iff_mem_keys {l : List (String × String)} {k : String} :
    (l.lookup k).isSome = true ↔ k ∈ l.map Prod.fst := by
  induction l with
  | nil => simp [List.lookup]
  | cons p ps ih =>
    by_cases h : p.1 = k
    · simp [List.lookup, h]
    · have : (k == p.1) = false := by simp [Ne.symm h]
      simp [List.lookup, this, ih, h, Ne.symm h]

theorem lookup_eq_none_iff_not_mem_keys {l : List (String × String)} {k : String} :
    l.lookup k = none ↔ k ∉ l.map Prod.fst := by
  rw [← lookup_isSome_iff_mem_keys]
  cases h : l.lookup k <;> simp [h]

theorem moduleName_eq (image : BootImageConfig) (idx : Nat) :
    moduleName image idx =
      if idx = 0 ∧ image.extendsName = none then image.stem
      else image.stem ++ "-" ++ ModuleStem (jarAt image idx) := by
  unfold moduleName
  by_cases h0 : idx = 0 <;> cases he : image.extendsName <;> simp [h0, he]

theorem moduleFilesFrom_eq_bind (image : BootImageConfig) (dir : String) (exts : List String)
    (hsi : image.singleImage = false) :
    ∀ (n i : Nat), moduleFilesFrom image dir exts i n
      = (List.range' i n).flatMap
          (fun j => exts.map (fun ext => dir ++ "/" ++ (moduleName image j ++ ext))) := by
  intro n
  induction n with
  | zero => intro i; simp [moduleFilesFrom]
  | succ n ih =>
    intro i
    simp [moduleFilesFrom, hsi, List.range'_succ, ih]

/- ===================================================================
   Claim theorems
   =================================================================== -/

set_option maxRecDepth 16000

/-- C8: for the ABI allow-list loader, given a well-formed document with N
`library` elements (the unmarshalled `Library` list), the resulting library
list contains exactly those N names in document order; given a nonexistent
path (including the empty path when `QIIFA_BUILD_CONFIG` is unset), the
resulting list is empty and no error is raised. -/
theorem qiifa_abi_allow_list_spec :
    (∀ doc : QiifaAbiLibs, loadQiifaAbiLibraryList true doc = doc.Library)
    ∧ (∀ doc : QiifaAbiLibs, loadQiifaAbiLibraryList false doc = []) := by
  constructor
  · intro doc
    simp [loadQiifaAbiLibraryList, foldl_append_singleton]
  · intro doc
    simp [loadQiifaAbiLibraryList]

/-- C2: the common-compiler-flags query appends exactly one
stack-initialization flag group, selected by the 4-way environment check in
priority order (zero, else pattern, else uninitialized, else the zero triple
again); the result never contains more than one of the three initialization
options, whatever the toggles. -/
theorem common_cflags_single_auto_init :
    ∀ linuxHost autoZero autoPattern autoUninit useCcache allowUnknown : Bool,
      (commonGlobalCflagsVar linuxHost autoZero autoPattern autoUninit useCcache allowUnknown).countP
          isAutoInitFlag = 1
      ∧ (commonGlobalCflagsVar linuxHost autoZero autoPattern autoUninit useCcache allowUnknown).filter
          isAutoInitFlag
        = [if autoZero then zeroInitFlags
           else if autoPattern then patternInitFlag
           else if autoUninit then uninitInitFlag
           else zeroInitFlags] := by
  decide

/-- C3: a boot image component's output file names are exactly
`<stem><ext>` for index 0 of a primary image (no `extends` base), and
`<stem>-<library><ext>` for every other index and for every index of an
extension image; `moduleFiles` emits these names for every component (only
the first when the image is a single-image config). -/
theorem boot_image_component_naming :
    (∀ (image : BootImageConfig) (idx : Nat),
        moduleName image idx =
          if idx = 0 ∧ image.extendsName = none then image.stem
          else image.stem ++ "-" ++ ModuleStem (jarAt image idx))
    ∧ (∀ (image : BootImageConfig) (dir : String) (exts : List String),
        moduleFiles image dir exts =
          (if image.singleImage then (List.range image.modules.length).take 1
           else List.range image.modules.length).flatMap
            (fun i => exts.map (fun ext =>
              dir ++ "/" ++
                ((if i = 0 ∧ image.extendsName = none then image.stem
                  else image.stem ++ "-" ++ ModuleStem (jarAt image i)) ++ ext)))) := by
  refine ⟨moduleName_eq, ?_⟩
  intro image dir exts
  by_cases hsi : image.singleImage
  · unfold moduleFiles
    cases hn : image.modules.length with
    | zero => simp [moduleFilesFrom]
    | succ n =>
      rw [List.range_succ_eq_map]
      simp [moduleFilesFrom, hsi, moduleName_eq]
  · unfold moduleFiles
    rw [moduleFilesFrom_eq_bind image dir exts (by simpa using hsi), List.range_eq_range']
    simp [hsi, moduleName_eq]

/-- C4: a boot image variant's image-location lists are the base variant's
lists (empty for a primary image) followed by the variant's own location, in
both the on-host and on-device forms; a primary image yields singleton
lists, and an extension of the primary yields two-element lists ordered
(base location, own location), with length growing along the extension
chain. -/
theorem boot_image_locations_spec :
    (∀ (base : BootImageVariant) (ph pd arch : String),
        imageLocations (.extensionOf base ph pd arch)
          = ((imageLocations base).1 ++ [PathToLocation ph arch],
             (imageLocations base).2 ++ [PathStringToLocation pd arch]))
    ∧ (∀ ph pd arch : String,
        imageLocations (.primary ph pd arch)
          = ([PathToLocation ph arch], [PathStringToLocation pd arch]))
    ∧ (∀ v : BootImageVariant,
        (imageLocations v).1.length = variantChainLength v
        ∧ (imageLocations v).2.length = variantChainLength v)
    ∧ (∀ ph pd arch ph2 pd2 arch2 : String,
        imageLocations (.extensionOf (.primary ph pd arch) ph2 pd2 arch2)
          = ([PathToLocation ph arch, PathToLocation ph2 arch2],
             [PathStringToLocation pd arch, PathStringToLocation pd2 arch2])) := by
  refine ⟨?_, ?_, ?_, ?_⟩
  · intro base ph pd arch
    simp [imageLocations]
  · intro ph pd arch
    simp [imageLocations]
  · intro v
    induction v with
    | primary ph pd arch => simp [imageLocations, variantChainLength]
    | extensionOf base ph pd arch ih => simp [imageLocations, variantChainLength, ih]
  · intro ph pd arch ph2 pd2 arch2
    simp [imageLocations]

theorem countP_prefixed_map_eq_zero (l : List String) (pfx check : String) (hp : pfx ≠ check) :
    l.countP ((fun t : CmdTok => t.1 == check) ∘ fun p => (pfx, p)) = 0 := by
  simp [List.countP_eq_zero, Function.comp, hp]

/-- C5: `isProfileGuided` is true exactly when the compiler-filter string is
the literal `everything`; the per-variant dex2oat command carries exactly one
`--compiler-filter=` argument unless the image is profile-guided and global
profile generation is disabled, in which case it carries none; when emitted,
the argument's value is the configured filter. -/
theorem profile_guided_compiler_filter (global : GlobalConfig) (v : VariantCmdInput)
    (hboot : global.bootFlags ≠ "--compiler-filter=")
    (hextra : v.extraFlags ≠ "--compiler-filter=") :
    (∀ image : BootImageConfig, isProfileGuided image = true ↔ image.compilerFilter = "everything")
    ∧ ((dex2oatCmd global v).countP (fun t => t.1 == "--compiler-filter=")
        = if isProfileGuided v.config && global.disableGenerateProfile then 0 else 1)
    ∧ ((isProfileGuided v.config && global.disableGenerateProfile) = false →
        flagArg "--compiler-filter=" v.config.compilerFilter ∈ dex2oatCmd global v) := by
  have hb : (global.bootFlags == "--compiler-filter=") = false := by
    simpa using hboot
  have he : (v.extraFlags == "--compiler-filter=") = false := by
    simpa using hextra
  refine ⟨?_, ?_, ?_⟩
  · intro image
    simp [isProfileGuided]
  · unfold dex2oatCmd flagTok flagArg
    cases v.profile <;>
      simp [List.countP_append, List.countP_cons, List.countP_map, List.countP_nil,
        apply_ite (List.countP fun t : CmdTok => t.1 == "--compiler-filter="),
        hb, he, countP_prefixed_map_eq_zero] <;>
      cases hpg : isProfileGuided v.config <;>
      cases hd : global.disableGenerateProfile <;>
      simp
  · intro hcond
    simp [dex2oatCmd, hcond, flagArg, flagTok]

/-- Witness for C5 at the default global config and variant input. -/
theorem profile_guided_compiler_filter_witness :
    (({} : GlobalConfig).bootFlags ≠ "--compiler-filter=")
    ∧ (({} : VariantCmdInput).extraFlags ≠ "--compiler-filter=")
    ∧ ((∀ image : BootImageConfig,
          isProfileGuided image = true ↔ image.compilerFilter = "everything")
       ∧ ((dex2oatCmd {} {}).countP (fun t => t.1 == "--compiler-filter=")
            = if isProfileGuided ({} : VariantCmdInput).config
                  && ({} : GlobalConfig).disableGenerateProfile then 0 else 1)
       ∧ ((isProfileGuided ({} : VariantCmdInput).config
              && ({} : GlobalConfig).disableGenerateProfile) = false →
            flagArg "--compiler-filter=" ({} : VariantCmdInput).config.compilerFilter
              ∈ dex2oatCmd {} {})) :=
  ⟨by decide, by decide, profile_guided_compiler_filter {} {} (by decide) (by decide)⟩

/-- C1: vendor-config resolution applies the default block, then the
product-specific block, then the environment: with a default block carrying
`SDCLANG=true` and `SDCLANG_PATH=/x`, a product block for `p` carrying only
`SDCLANG=false`, and no `SDCLANG`/`SDCLANG_PATH` environment overrides,
resolving for product `p` yields enablement `false` and path `/x`, and
resolving for any other product yields enablement `true` and path `/x`. -/
theorem sdclang_resolution_order (env : SdclangEnv) (ae : Option String)
    (dflt pblk : SdclangBlock) (p : String)
    (hcfg : env.sdclangConfigPath ≠ "")
    (hno1 : env.sdclangEnvVar = "")
    (hno2 : env.sdclangPathEnv = "")
    (hd1 : dflt.sdclang = some true) (hd2 : dflt.sdclangPath = some "/x")
    (hp1 : pblk.sdclang = some false) (hp2 : pblk.sdclangPath = none) :
    (env.targetBoardPlatform = p →
      ∃ s, setSdclangVars env ae (some { defaultBlock := some dflt, products := [(p, pblk)] })
            = .ok s ∧ s.sdclang = false ∧ s.sdclangPath = "/x")
    ∧ (env.targetBoardPlatform ≠ p →
      ∃ s, setSdclangVars env ae (some { defaultBlock := some dflt, products := [(p, pblk)] })
            = .ok s ∧ s.sdclang = true ∧ s.sdclangPath = "/x") := by
  constructor
  · intro hprod
    simp [setSdclangVars, sdclangLoadConfig, sdclangEffectiveEnable, parseBool, hcfg,
      hno1, hno2, hd1, hd2, hp1, hp2, hprod, List.lookup]
  · intro hprod
    have hlk : (env.targetBoardPlatform == p) = false := by simpa using hprod
    simp [setSdclangVars, sdclangLoadConfig, sdclangEffectiveEnable, parseBool, hcfg,
      hno1, hno2, hd1, hd2, hp1, hp2, hlk, List.lookup]

/-- Witness for C1: the concrete scenario of the claim, for product `P` and
for an unlisted product `Q`. -/
theorem sdclang_resolution_order_witness :
    (∃ s, setSdclangVars { targetBoardPlatform := "P", sdclangConfigPath := "cfg.json" } none
        (some { defaultBlock := some { sdclang := some true, sdclangPath := some "/x" },
                products := [("P", { sdclang := some false })] })
      = .ok s ∧ s.sdclang = false ∧ s.sdclangPath = "/x")
    ∧ (∃ s, setSdclangVars { targetBoardPlatform := "Q", sdclangConfigPath := "cfg.json" } none
        (some { defaultBlock := some { sdclang := some true, sdclangPath := some "/x" },
                products := [("P", { sdclang := some false })] })
      = .ok s ∧ s.sdclang = true ∧ s.sdclangPath = "/x") := by
  constructor
  · exact (sdclang_resolution_order
      { targetBoardPlatform := "P", sdclangConfigPath := "cfg.json" } none
      { sdclang := some true, sdclangPath := some "/x" } { sdclang := some false } "P"
      (by decide) rfl rfl rfl rfl rfl rfl).1 rfl
  · exact (sdclang_resolution_order
      { targetBoardPlatform := "Q", sdclangConfigPath := "cfg.json" } none
      { sdclang := some true, sdclangPath := some "/x" } { sdclang := some false } "P"
      (by decide) rfl rfl rfl rfl rfl rfl).2 (by decide)

/-- C9: with the vendor-config environment variable set and the JSON parsed,
resolution aborts (a Go panic, modelled as an error) when the default block
is missing, when the default block lacks `SDCLANG_PATH`, or when the
resolved path is empty while effective enablement is true and there is no
`SDCLANG_PATH` environment fallback. -/
theorem sdclang_missing_config_fatal (env : SdclangEnv) (ae : Option String) (c : SdclangConfig)
    (hcfg : env.sdclangConfigPath ≠ "")
    (hpath : env.sdclangPathEnv = "")
    (hcase :
      c.defaultBlock = none
      ∨ (∃ d, c.defaultBlock = some d ∧ d.sdclangPath = none)
      ∨ (∃ s1, sdclangLoadConfig env { sdclangAEFlag := ae.getD "" } (some c) = .ok s1
           ∧ s1.sdclangPath = ""
           ∧ sdclangEffectiveEnable env.sdclangEnvVar s1.sdclang = true)) :
    exceptIsError (setSdclangVars env ae (some c)) = true := by
  rcases hcase with h | ⟨d, hd, hdp⟩ | ⟨s1, hs1, hp, hen⟩
  · simp [setSdclangVars, sdclangLoadConfig, hcfg, h, exceptIsError]
  · simp [setSdclangVars, sdclangLoadConfig, hcfg, hd, hdp, exceptIsError]
  · simp [setSdclangVars, hcfg, hs1, hp, hen, hpath, exceptIsError]

/-- Witness for C9: a parsed vendor config whose default block lacks
`SDCLANG_PATH` aborts resolution. -/
theorem sdclang_missing_config_fatal_witness :
    ({ sdclangConfigPath := "cfg.json" } : SdclangEnv).sdclangConfigPath ≠ ""
    ∧ exceptIsError (setSdclangVars { sdclangConfigPath := "cfg.json" } none
        (some { defaultBlock := some { sdclang := some true } })) = true :=
  ⟨by decide,
   sdclang_missing_config_fatal { sdclangConfigPath := "cfg.json" } none
     { defaultBlock := some { sdclang := some true } } (by decide) rfl
     (Or.inr (Or.inl ⟨{ sdclang := some true }, rfl, rfl⟩))⟩

theorem map_observable_ite (c : Prop) [Decidable c] (e : String) (s₁ s₂ : SdclangState)
    (h : sdclangObservable s₁ = sdclangObservable s₂) :
    (if c then (.error e : Except String SdclangState) else .ok s₁).map sdclangObservable
    = (if c then (.error e : Except String SdclangState) else .ok s₂).map sdclangObservable := by
  split <;> simp [Except.map, h]

/-- C10: the `FORCE_SDCLANG_OFF` value of the default block has no effect on
resolution: two vendor configs that differ only in that value resolve to the
same enablement, compiler path, extra flags and AE flag (the value is only
stored in the dedicated package variable, which nothing in this component
reads). -/
theorem force_sdclang_off_unused (env : SdclangEnv) (ae : Option String)
    (d : SdclangBlock) (prods : List (String × SdclangBlock)) (v₁ v₂ : Option Bool) :
    (setSdclangVars env ae
        (some { defaultBlock := some ({ d with forceSdclangOff := v₁ }), products := prods })).map
        sdclangObservable
    = (setSdclangVars env ae
        (some { defaultBlock := some ({ d with forceSdclangOff := v₂ }), products := prods })).map
        sdclangObservable := by
  unfold setSdclangVars sdclangLoadConfig
  by_cases hcfg : env.sdclangConfigPath = ""
  · simp [hcfg]
  · cases hdp : d.sdclangPath with
    | none => simp [hcfg, hdp]
    | some path1 =>
      cases hlk : prods.lookup env.targetBoardPlatform <;>
        · simp only [hcfg, if_neg, hdp, hlk]
          exact map_observable_ite _ _ _ _ rfl

theorem copyBootJars_filter (allowMissing : Bool) (src dst : List (String × String)) (name : String)
    (hmem : name ∈ src.map Prod.fst ++ dst.map Prod.fst) :
    (copyBootJarsToPredefinedLocations allowMissing src dst).filter
        (fun e => e.forModule == name)
      = [match src.lookup name, dst.lookup name with
         | none, _ => if allowMissing then BootJarCopyStep.missingDep name
                      else BootJarCopyStep.errorNoDexJar name
         | some _, none => BootJarCopyStep.errorNotInBootConfig name
         | some s, some d => BootJarCopyStep.copy name s d] := by
  unfold copyBootJarsToPredefinedLocations
  rw [filter_forModule_map _ ?hf,
    filter_beq_of_nodup (nodup_sortedUniqueStrings _) (mem_sortedUniqueStrings.mpr hmem)]
  · simp
  case hf =>
    intro n
    rcases hsrc : src.lookup n with _ | s
    · cases allowMissing <;> simp [hsrc, BootJarCopyStep.forModule]
    · rcases hdst : dst.lookup n with _ | d <;> simp [hsrc, hdst, BootJarCopyStep.forModule]

/-- C6: for every module name in the union of the discovered-source map and
the expected-destination map, the copy operation produces exactly one step
for that name: a "not part of the boot configuration" module error (and no
copy) when discovered but not expected, a "does not provide a dex boot jar"
module error when expected but not discovered with missing dependencies
disallowed, and exactly one copy step when present in both. -/
theorem copy_boot_jars_per_module (allowMissing : Bool)
    (src dst : List (String × String)) (name : String) :
    (∀ s, src.lookup name = some s → dst.lookup name = none →
        (copyBootJarsToPredefinedLocations allowMissing src dst).filter
            (fun e => e.forModule == name)
          = [.errorNotInBootConfig name])
    ∧ (src.lookup name = none → ∀ d, dst.lookup name = some d → allowMissing = false →
        (copyBootJarsToPredefinedLocations allowMissing src dst).filter
            (fun e => e.forModule == name)
          = [.errorNoDexJar name])
    ∧ (∀ s d, src.lookup name = some s → dst.lookup name = some d →
        (copyBootJarsToPredefinedLocations allowMissing src dst).filter
            (fun e => e.forModule == name)
          = [.copy name s d]) := by
  refine ⟨?_, ?_, ?_⟩
  · intro s hs hd
    have hmem : name ∈ src.map Prod.fst ++ dst.map Prod.fst :=
      List.mem_append_left _ (lookup_isSome_iff_mem_keys.mp (by simp [hs]))
    rw [copyBootJars_filter allowMissing src dst name hmem, hs, hd]
  · intro hs d hd hallow
    have hmem : name ∈ src.map Prod.fst ++ dst.map Prod.fst :=
      List.mem_append_right _ (lookup_isSome_iff_mem_keys.mp (by simp [hd]))
    rw [copyBootJars_filter allowMissing src dst name hmem, hs, hd, hallow]
    rfl
  · intro s d hs hd
    have hmem : name ∈ src.map Prod.fst ++ dst.map Prod.fst :=
      List.mem_append_left _ (lookup_isSome_iff_mem_keys.mp (by simp [hs]))
    rw [copyBootJars_filter allowMissing src dst name hmem, hs, hd]

/-- Witness for C6: module `c` discovered but not expected, module `b`
expected but not discovered, module `a` present in both. -/
theorem copy_boot_jars_per_module_witness :
    ((copyBootJarsToPredefinedLocations false [("a", "srcA"), ("c", "srcC")]
        [("a", "dstA"), ("b", "dstB")]).filter (fun e => e.forModule == "c")
      = [.errorNotInBootConfig "c"])
    ∧ ((copyBootJarsToPredefinedLocations false [("a", "srcA"), ("c", "srcC")]
        [("a", "dstA"), ("b", "dstB")]).filter (fun e => e.forModule == "b")
      = [.errorNoDexJar "b"])
    ∧ ((copyBootJarsToPredefinedLocations false [("a", "srcA"), ("c", "srcC")]
        [("a", "dstA"), ("b", "dstB")]).filter (fun e => e.forModule == "a")
      = [.copy "a" "srcA" "dstA"]) :=
  ⟨(copy_boot_jars_per_module false _ _ "c").1 "srcC" rfl rfl,
   (copy_boot_jars_per_module false _ _ "b").2.1 rfl "dstB" rfl rfl,
   (copy_boot_jars_per_module false _ _ "a").2.2 "srcA" "dstA" rfl rfl⟩

/-- Counterexample to C7 as stated: a profile-guided image with profile
generation enabled, a nonempty global `BootImageProfiles` list and no
default profile file on disk does produce a profile, so "no default profile
file exists on disk" is not by itself one of the exact skip conditions. -/
theorem boot_profile_skip_counterexample :
    ¬ ((bootImageProfileRule { bootImageProfiles := ["product/profile.txt"] } {}
          { compilerFilter := "everything", dir := "out" } = none)
        ↔ (isProfileGuided { compilerFilter := "everything", dir := "out" } = false
           ∨ ({ bootImageProfiles := ["product/profile.txt"] } : GlobalConfig).disableGenerateProfile
               = true
           ∨ ({} : ProfileRuleCtx).defaultProfileExists = false)) := by
  decide

/-- C7 amended: the boot-profile rule produces no profile exactly when the
image is not profile-guided, global profile generation is disabled, or the
global `BootImageProfiles` list is empty and no default profile file exists
on disk; otherwise its inputs are the configured list when nonempty (else
the default file), concatenated with the extra profile file when that
exists, and only the default image installs the result at
`/system/etc/boot-image.prof`. -/
theorem boot_profile_rule_spec :
    ∀ (global : GlobalConfig) (ctx : ProfileRuleCtx) (image : BootImageConfig),
      (bootImageProfileRule global ctx image = none
        ↔ (isProfileGuided image = false ∨ global.disableGenerateProfile = true
           ∨ (global.bootImageProfiles = [] ∧ ctx.defaultProfileExists = false)))
      ∧ (((bootImageProfileRule global ctx image).map ProfileRuleResult.profiles).getD []
        = if (bootImageProfileRule global ctx image).isSome then
            (if global.bootImageProfiles.length > 0 then global.bootImageProfiles
             else ["frameworks/base/config/boot-image-profile.txt"])
            ++ (if ctx.extraProfileExists then
                  ["frameworks/base/config/boot-image-profile-extra.txt"]
                else [])
          else [])
      ∧ (((bootImageProfileRule global ctx image).map ProfileRuleResult.installs).getD []
        = if (bootImageProfileRule global ctx image).isSome && ctx.isDefaultImage then
            [(image.dir ++ "/" ++ "boot.prof", "/system/etc/boot-image.prof")]
          else []) := by
  intro global ctx image
  unfold bootImageProfileRule
  by_cases hpg : isProfileGuided image <;>
    by_cases hdis : global.disableGenerateProfile <;>
    cases hbp : global.bootImageProfiles <;>
    by_cases hdef : ctx.defaultProfileExists <;>
    simp_all
